import Mathlib

/-!
Verification development for the bloom detection and prediction core
(`bloom_detector.py`, `bloom_predictor.py`, `vegetation_indices.py`).

The Python code is shallowly embedded: numpy float arrays become lists or
functions over `ℚ` (decimal float literals of the source are read as exact
rationals), IEEE special values produced by division are an explicit
`FloatVal` type, Python exceptions become `Except` results caught at each
public boundary, and the global numpy random generator is threaded as an
explicit stream state.
-/

namespace Bloom

/-- Python `int(...)` applied to a nonnegative-or-negative rational float:
truncation toward zero. -/
def pyInt (q : ℚ) : ℤ := if 0 ≤ q then ⌊q⌋ else ⌈q⌉

/-- `np.clip(x, lo, hi)` for scalars. -/
def npClip (lo hi x : ℚ) : ℚ := max lo (min hi x)

/-- Mean of a list (`np.mean`); the embedding is only applied to nonempty
lists, matching the guarded call sites. -/
def listMean (l : List ℚ) : ℚ := l.sum / l.length

/-- `np.max` over a nonempty list, seeded with the head. -/
def listMax (l : List ℚ) : ℚ := l.foldl max (l.headD 0)

/-- `np.min` over a nonempty list of naturals, seeded with the head. -/
def listMinN (l : List ℕ) : ℕ := l.foldl min (l.headD 0)

/-- `np.max` over a nonempty list of naturals, seeded with the head. -/
def listMaxN (l : List ℕ) : ℕ := l.foldl max (l.headD 0)

/-- `min` over a nonempty list of integers, seeded with the head. -/
def listMinZ (l : List ℤ) : ℤ := l.foldl min (l.headD 0)

/-- Models the float square root applied to a rational value: the exact
square root rounded down at 9 decimal digits of precision (`0` on
nonpositive input, where numpy would warn and return `nan`). -/
def sqrtQ (q : ℚ) : ℚ :=
  if q ≤ 0 then 0 else (Nat.sqrt (q * 10 ^ 18).floor.toNat : ℚ) / 10 ^ 9

/-- Population standard deviation `np.std` (ddof = 0). -/
def stdQ (l : List ℚ) : ℚ :=
  sqrtQ (listMean (l.map (fun x => (x - listMean l) ^ 2)))

/-- Stable insertion of a value into an ascending sorted list. -/
def insertAsc (a : ℚ) : List ℚ → List ℚ
  | [] => [a]
  | b :: t => if b ≤ a then b :: insertAsc a t else a :: b :: t

/-- Ascending sort of a rational list (used to model `np.median`). -/
def sortAsc (l : List ℚ) : List ℚ := l.foldl (fun acc a => insertAsc a acc) []

/-- `np.median`: middle element of the sorted list, or the average of the
two middle elements for an even length. -/
def medianQ (l : List ℚ) : ℚ :=
  let s := sortAsc l
  if l.length % 2 = 1 then s.getD (l.length / 2) 0
  else (s.getD (l.length / 2 - 1) 0 + s.getD (l.length / 2) 0) / 2

/-- Association-list lookup, modelling Python dict indexing / `.get`. -/
def alookup {α : Type} (k : String) : List (String × α) → Option α
  | [] => none
  | (k2, v) :: t => if k = k2 then some v else alookup k t

/-- Contiguous-sublist test on character lists. -/
def containsSub (needle : List Char) : List Char → Bool
  | [] => needle.isEmpty
  | c :: t => needle.isPrefixOf (c :: t) || containsSub needle t

/-- Substring test, modelling the Python `in` operator on strings. -/
def strContains (hay needle : String) : Bool :=
  containsSub needle.toList hay.toList

/-! ## IEEE-style scalar values

`(nir - red) / (nir + red)` in numpy does not raise on a zero denominator:
it produces `±inf` or `nan`, which `np.nan_to_num` then replaces by `0`.
`FloatVal` makes those special results explicit. -/

/-- Result of a numpy float scalar operation: finite, `nan`, or `±inf`. -/
inductive FloatVal : Type
  | fin (q : ℚ)
  | nan
  | pinf
  | ninf
deriving DecidableEq

/-- Numpy float division: finite quotient, or a special value when the
denominator is zero. -/
def fdiv (a b : ℚ) : FloatVal :=
  if b = 0 then (if a = 0 then .nan else if 0 < a then .pinf else .ninf)
  else .fin (a / b)

/-- Multiplication of a numpy float value by a finite constant. -/
def fscale (c : ℚ) : FloatVal → FloatVal
  | .fin q => .fin (c * q)
  | .nan => .nan
  | .pinf => if 0 < c then .pinf else if c < 0 then .ninf else .nan
  | .ninf => if 0 < c then .ninf else if c < 0 then .pinf else .nan

/-- `np.nan_to_num(x, nan=0.0, posinf=0.0, neginf=0.0)` on a scalar. -/
def nanToNum : FloatVal → ℚ
  | .fin q => q
  | _ => 0

/-! ## Vegetation index calculator (`vegetation_indices.py`) -/

/-- One NDVI pixel: `(nir - red) / (nir + red)`, `nan_to_num`, then
`np.clip(-1, 1)` — lines 61-66 of `calculate_ndvi`. -/
def ndviPoint (red nir : ℚ) : ℚ :=
  npClip (-1) 1 (nanToNum (fdiv (nir - red) (nir + red)))

/-- One EVI pixel: `2.5 * ((nir - red) / (nir + 6*red - 7.5*blue + 1))`,
`nan_to_num`, then `np.clip(-1, 1)` — lines 122-127 of `calculate_evi`. -/
def eviPoint (red nir blue : ℚ) : ℚ :=
  npClip (-1) 1
    (nanToNum (fscale (5/2) (fdiv (nir - red) (nir + 6 * red - (15/2) * blue + 1))))

/-- Elementwise NDVI over aligned band arrays (arrays as index functions). -/
def ndviFromBands (red nir : ℕ → ℚ) : ℕ → ℚ :=
  fun i => ndviPoint (red i) (nir i)

/-- Elementwise EVI over aligned band arrays. -/
def eviFromBands (red nir blue : ℕ → ℚ) : ℕ → ℚ :=
  fun i => eviPoint (red i) (nir i) (blue i)

/-- A numpy array: a size together with its element function (elements past
the size are irrelevant padding). -/
structure NDArr where
  size : ℕ
  data : ℕ → ℚ

/-- Array from a Python list. -/
def NDArr.ofList (l : List ℚ) : NDArr := ⟨l.length, fun i => l.getD i 0⟩

/-- Elementwise scaling of an array (`ndvi * 1.1`, `np.array(values) * 1.15`). -/
def NDArr.scale (c : ℚ) (a : NDArr) : NDArr := ⟨a.size, fun i => a.data i * c⟩

/-- State of the global numpy random generator: a stream of uniform [0,1)
samples and the current position in it. -/
structure Rng where
  stream : ℕ → ℚ
  pos : ℕ

/-- `np.random.uniform(lo, hi, shape)` drawing `n` samples and advancing the
generator. -/
def randUniform (lo hi : ℚ) (n : ℕ) (g : Rng) : NDArr × Rng :=
  (⟨n, fun i => lo + (hi - lo) * g.stream (g.pos + i)⟩, ⟨g.stream, g.pos + n⟩)

/-- The satellite payload dictionary consumed by the index calculator.
`ndvi_values` is the optional `'ndvi_values'` entry, `ndvi_data` the
optional pre-calculated `'ndvi_data'` dictionary (collapsed to its
`'values'` list; `some []` stands for a falsy/value-less dictionary), and
`bands` the `'bands'` mapping from band name to asset reference. -/
structure SatelliteData where
  demo_mode : Bool := false
  ndvi_values : Option (List ℚ) := none
  ndvi_data : Option (List ℚ) := none
  bands : List (String × String) := []

/-- `_extract_band_data`: `None` when the band asset is absent, otherwise
synthetic uniform data drawn from the global generator; the demo branch
uses per-band ranges and every other reachable case falls through to
`np.random.uniform(0.1, 0.8, (100, 100))`. -/
def extractBandData (s : SatelliteData) (band : String) (g : Rng) :
    Option NDArr × Rng :=
  match alookup band s.bands with
  | none => (none, g)
  | some _ =>
    if s.demo_mode then
      if band = "red" then
        let (a, g2) := randUniform (1/20) (3/20) 10000 g
        (some a, g2)
      else if band = "nir" ∨ band = "nir08" then
        let (a, g2) := randUniform (3/10) (4/5) 10000 g
        (some a, g2)
      else if band = "blue" then
        let (a, g2) := randUniform (3/100) (1/10) 10000 g
        (some a, g2)
      else if band = "green" then
        let (a, g2) := randUniform (1/25) (3/25) 10000 g
        (some a, g2)
      else
        let (a, g2) := randUniform (1/10) (4/5) 10000 g
        (some a, g2)
    else
      let (a, g2) := randUniform (1/10) (4/5) 10000 g
      (some a, g2)

/-- Body of `calculate_ndvi` (inside its `try`): demo series, pre-calculated
values, or the red/nir band computation; a band-shape mismatch is the one
arithmetic fault the numpy expression can raise. -/
def calculateNDVICore (s : SatelliteData) (g : Rng) : Except String NDArr × Rng :=
  if s.demo_mode then (.ok (NDArr.ofList (s.ndvi_values.getD [])), g)
  else
    match s.ndvi_data with
    | some vs =>
      if vs.isEmpty then
        ndviBandPath s g
      else (.ok (NDArr.ofList vs), g)
    | none => ndviBandPath s g
where
  /-- The band-extraction branch of `calculate_ndvi`. -/
  ndviBandPath (s : SatelliteData) (g : Rng) : Except String NDArr × Rng :=
    let (red, g1) := extractBandData s "red" g
    let (nir, g2) := extractBandData s "nir" g1
    match red, nir with
    | some r, some n =>
      if r.size = n.size then
        (.ok ⟨r.size, fun i => ndviPoint (r.data i) (n.data i)⟩, g2)
      else (.error "operands could not be broadcast together", g2)
    | _, _ => (.ok (NDArr.ofList []), g2)

/-- Public `calculate_ndvi`: any internal exception is caught and converted
to an empty array. -/
def calculate_ndvi (s : SatelliteData) (g : Rng) : NDArr × Rng :=
  match calculateNDVICore s g with
  | (.ok a, g2) => (a, g2)
  | (.error _, g2) => (NDArr.ofList [], g2)

/-- Body of `calculate_evi` (inside its `try`). -/
def calculateEVICore (s : SatelliteData) (g : Rng) : Except String NDArr × Rng :=
  if s.demo_mode then
    (.ok ((NDArr.ofList (s.ndvi_values.getD [])).scale (11/10)), g)
  else
    match s.ndvi_data with
    | some vs =>
      if vs.isEmpty then
        eviBandPath s g
      else (.ok ((NDArr.ofList vs).scale (23/20)), g)
    | none => eviBandPath s g
where
  /-- The band-extraction branch of `calculate_evi`. -/
  eviBandPath (s : SatelliteData) (g : Rng) : Except String NDArr × Rng :=
    let (red, g1) := extractBandData s "red" g
    let (nir, g2) := extractBandData s "nir" g1
    let (blue, g3) := extractBandData s "blue" g2
    match red, nir, blue with
    | some r, some n, some b =>
      if r.size = n.size ∧ n.size = b.size then
        (.ok ⟨r.size, fun i => eviPoint (r.data i) (n.data i) (b.data i)⟩, g3)
      else (.error "operands could not be broadcast together", g3)
    | _, _, _ => (.ok (NDArr.ofList []), g3)

/-- Public `calculate_evi`: any internal exception is caught and converted
to an empty array. -/
def calculate_evi (s : SatelliteData) (g : Rng) : NDArr × Rng :=
  match calculateEVICore s g with
  | (.ok a, g2) => (a, g2)
  | (.error _, g2) => (NDArr.ofList [], g2)

/-- A payload reaches the random-number-backed band extractor in
`calculate_ndvi` exactly when it is not demo mode, has no usable
pre-calculated values, and carries both a red and a nir band asset. -/
def usesBandExtraction (s : SatelliteData) : Bool :=
  !s.demo_mode && (s.ndvi_data.getD []).isEmpty
    && (alookup "red" s.bands).isSome && (alookup "nir" s.bands).isSome

/-! ## Peak finding (`scipy.signal.find_peaks`)

`detect_blooms` calls `find_peaks(ndvi, height=threshold, distance=2,
prominence=0.1)`.  The scipy pipeline is: strict local maxima (plateau
midpoints), then the height filter, then the distance filter, then the
prominence filter.  Upward-running loops are written with an explicit fuel
argument that the call sites instantiate large enough to be unreachable. -/

/-- Inner `while` of `_local_maxima_1d`: advance `i_ahead` past a plateau of
samples equal to `v`, stopping at `iMax` at the latest. -/
def findPlateauEnd (xs : List ℚ) (iMax : ℕ) (v : ℚ) : ℕ → ℕ → ℕ
  | 0, j => j
  | fuel + 1, j =>
    if j < iMax ∧ xs.getD j 0 = v then findPlateauEnd xs iMax v fuel (j + 1) else j

/-- Main loop of `_local_maxima_1d`: emit the midpoint of every maximal
plateau whose neighbours on both sides are strictly smaller. -/
def localMaximaLoop (xs : List ℚ) (iMax : ℕ) : ℕ → ℕ → List ℕ
  | 0, _ => []
  | fuel + 1, i =>
    if i < iMax then
      if xs.getD (i - 1) 0 < xs.getD i 0 then
        let ia := findPlateauEnd xs iMax (xs.getD i 0) iMax (i + 1)
        if xs.getD ia 0 < xs.getD i 0 then
          (i + (ia - 1)) / 2 :: localMaximaLoop xs iMax fuel (ia + 1)
        else localMaximaLoop xs iMax fuel (i + 1)
      else localMaximaLoop xs iMax fuel (i + 1)
    else []

/-- `_local_maxima_1d`: indices of interior local maxima (plateau midpoints). -/
def localMaxima (xs : List ℚ) : List ℕ :=
  localMaximaLoop xs (xs.length - 1) xs.length 1

/-- Stable insertion of a peak position index into a list sorted by ascending
priority (ties keep the earlier index first, modelling a stable argsort). -/
def insertByPriority (priority : List ℚ) (a : ℕ) : List ℕ → List ℕ
  | [] => [a]
  | b :: t =>
    if priority.getD b 0 ≤ priority.getD a 0 then b :: insertByPriority priority a t
    else a :: b :: t

/-- `np.argsort(priority)`: index permutation sorting by ascending priority. -/
def argsortQ (priority : List ℚ) : List ℕ :=
  (List.range priority.length).foldl (fun acc a => insertByPriority priority a acc) []

/-- Left `while` of `_select_by_peak_distance`: walking down from position
`c - 1`, clear `keep` flags while the peak is closer than `dist`. -/
def clearLeft (peaks : List ℕ) (dist pj : ℕ) : ℕ → List Bool → List Bool
  | 0, keep => keep
  | c + 1, keep =>
    if (pj : ℤ) - (peaks.getD c 0 : ℤ) < dist then
      clearLeft peaks dist pj c (keep.set c false)
    else keep

/-- Right `while` of `_select_by_peak_distance`: walking up from position
`k`, clear `keep` flags while the peak is closer than `dist`. -/
def clearRight (peaks : List ℕ) (dist pj sz : ℕ) : ℕ → ℕ → List Bool → List Bool
  | 0, _, keep => keep
  | fuel + 1, k, keep =>
    if k < sz ∧ (peaks.getD k 0 : ℤ) - (pj : ℤ) < dist then
      clearRight peaks dist pj sz fuel (k + 1) (keep.set k false)
    else keep

/-- Main loop of `_select_by_peak_distance`, processing positions from the
highest priority downward. -/
def distanceLoop (peaks : List ℕ) (dist : ℕ) : List ℕ → List Bool → List Bool
  | [], keep => keep
  | j :: rest, keep =>
    if keep.getD j true then
      let pj := peaks.getD j 0
      let k1 := clearLeft peaks dist pj j keep
      let k2 := clearRight peaks dist pj peaks.length peaks.length (j + 1) k1
      distanceLoop peaks dist rest k2
    else distanceLoop peaks dist rest keep

/-- `_select_by_peak_distance`: keep flags for peaks at least `dist` apart,
giving higher peaks priority. -/
def selectByDistance (peaks : List ℕ) (priority : List ℚ) (dist : ℕ) : List Bool :=
  distanceLoop peaks dist (argsortQ priority).reverse (List.replicate peaks.length true)

/-- Left minimum scan of `_peak_prominences` (whole-signal window): walk left
from position `c - 1` while samples do not exceed the peak value. -/
def promLeft (xs : List ℚ) (vp : ℚ) : ℕ → ℚ → ℚ
  | 0, cur => cur
  | c + 1, cur =>
    if xs.getD c 0 ≤ vp then promLeft xs vp c (min cur (xs.getD c 0)) else cur

/-- Right minimum scan of `_peak_prominences`. -/
def promRight (xs : List ℚ) (n : ℕ) (vp : ℚ) : ℕ → ℕ → ℚ → ℚ
  | 0, _, cur => cur
  | fuel + 1, i, cur =>
    if i ≤ n - 1 ∧ xs.getD i 0 ≤ vp then
      promRight xs n vp fuel (i + 1) (min cur (xs.getD i 0))
    else cur

/-- Prominence of the peak at position `p`: peak height minus the higher of
the two base minima. -/
def prominence (xs : List ℚ) (p : ℕ) : ℚ :=
  let vp := xs.getD p 0
  vp - max (promLeft xs vp (p + 1) vp) (promRight xs xs.length vp xs.length p vp)

/-- `scipy.signal.find_peaks(xs, height, distance, prominence)` as called by
`detect_blooms` (all three filters active, `distance` already ceiled). -/
def findPeaks (xs : List ℚ) (height : ℚ) (dist : ℕ) (promMin : ℚ) : List ℕ :=
  let p0 := localMaxima xs
  let p1 := p0.filter (fun p => height ≤ xs.getD p 0)
  let keep := selectByDistance p1 (p1.map (fun p => xs.getD p 0)) dist
  let p2 := ((List.range p1.length).filter (fun i => keep.getD i false)).map
    (fun i => p1.getD i 0)
  p2.filter (fun p => promMin ≤ prominence xs p)

/-! ## Bloom detector (`bloom_detector.py`) -/

/-- Constructor configuration of `BloomDetector`. -/
structure BloomDetector where
  bloom_threshold : ℚ := 0.4
  change_threshold : ℚ := 0.2
  min_duration_days : ℕ := 14
deriving DecidableEq

/-- One detected bloom event: the dictionary built by `detect_blooms`, with
absent keys as `none`. -/
structure BloomEvent where
  type : String
  ndvi : Option ℚ := none
  is_blooming : Option Bool := none
  peak_index : Option ℕ := none
  start_index : Option ℕ := none
  end_index : Option ℕ := none
  peak_ndvi : Option ℚ := none
  start_ndvi : Option ℚ := none
  end_ndvi : Option ℚ := none
  mean_ndvi : Option ℚ := none
  duration_observations : Option ℤ := none
  increase_rate : Option ℚ := none
  confidence : ℚ
  intensity : Option String := none
  start_date : Option String := none
  peak_date : Option String := none
  end_date : Option String := none
  peak_evi : Option ℚ := none
deriving DecidableEq

/-- `_calculate_confidence`: the fixed step function over the peak value. -/
def calcConfidence (d : BloomDetector) (v : ℚ) : ℚ :=
  if v < d.bloom_threshold then 0
  else if v < 0.5 then 0.5
  else if v < 0.6 then 0.7
  else if v < 0.7 then 0.85
  else 0.95

/-- `_calculate_intensity`: classification of a segment by its mean value. -/
def calcIntensity (seg : List ℚ) : String :=
  let m := seg.sum / seg.length
  if m < 0.4 then "low"
  else if m < 0.6 then "moderate"
  else if m < 0.75 then "high"
  else "very_high"

/-- Backward loop of `_find_bloom_start`, with the iteration index counted
down structurally: at index `0` return `0`; at `i + 1` stop with `i + 2`
once the step up to the next sample falls below `0.05`. -/
def startLoop (xs : List ℚ) : ℕ → ℕ
  | 0 => 0
  | i + 1 =>
    if xs.getD (i + 2) 0 - xs.getD (i + 1) 0 < 0.05 then i + 2 else startLoop xs i

/-- `_find_bloom_start`: scan backward from the peak for the point where the
rapid ascent began. -/
def findBloomStart (xs : List ℚ) (p : ℕ) : ℕ :=
  if p = 0 then 0 else startLoop xs (p - 1)

/-- Forward loop of `_find_bloom_end`, parameterised by the comparison
threshold `t`: continue through any step below `-0.05`; otherwise return the
first index whose value is below `t`; reaching the last index returns it. -/
def endScan (t : ℚ) (xs : List ℚ) (n : ℕ) : ℕ → ℕ → ℕ
  | 0, _ => n - 1
  | fuel + 1, i =>
    if i = n - 1 then i
    else if xs.getD i 0 - xs.getD (i - 1) 0 < -0.05 then endScan t xs n fuel (i + 1)
    else if xs.getD i 0 < t then i
    else endScan t xs n fuel (i + 1)

/-- `_find_bloom_end` as written in the source: the forward scan compares
against the configured `self.bloom_threshold`. -/
def findBloomEnd (d : BloomDetector) (xs : List ℚ) (p : ℕ) : ℕ :=
  if xs.length - 1 ≤ p then xs.length - 1
  else endScan d.bloom_threshold xs xs.length xs.length (p + 1)

/-- The end-boundary rule as the specification words it for claim C4: the
same forward scan, but comparing against the threshold `t` in effect for the
`detect_blooms` call. -/
def findBloomEndClaim (t : ℚ) (xs : List ℚ) (p : ℕ) : ℕ :=
  if xs.length - 1 ≤ p then xs.length - 1
  else endScan t xs xs.length xs.length (p + 1)

/-- Build the `peak_bloom` event dictionary for one accepted peak. -/
def mkPeakEvent (d : BloomDetector) (xs : List ℚ) (evi : Option (List ℚ))
    (dates : Option (List String)) (p : ℕ) : BloomEvent :=
  let pv := xs.getD p 0
  let s := findBloomStart xs p
  let e := findBloomEnd d xs p
  let withDates := match dates with
    | some ds => decide (max p (max e s) < ds.length)
    | none => false
  { type := "peak_bloom"
    peak_index := some p
    start_index := some s
    end_index := some e
    peak_ndvi := some pv
    start_ndvi := some (xs.getD s 0)
    end_ndvi := some (xs.getD e 0)
    duration_observations := some ((e : ℤ) - (s : ℤ) + 1)
    increase_rate := some ((pv - xs.getD s 0) / ((max ((p : ℤ) - (s : ℤ)) 1 : ℤ) : ℚ))
    confidence := calcConfidence d pv
    intensity := some (calcIntensity ((xs.drop s).take (e + 1 - s)))
    start_date := if withDates then some ((dates.getD []).getD s "") else none
    peak_date := if withDates then some ((dates.getD []).getD p "") else none
    end_date := if withDates then some ((dates.getD []).getD e "") else none
    peak_evi := match evi with
      | some ev => if p < ev.length then some (ev.getD p 0) else none
      | none => none }

/-- Body of `detect_blooms` (inside its `try`): empty input, single value,
peakless sustained bloom, or one `peak_bloom` event per accepted peak.  A
list input cannot hit the zero-dimensional branch, and the body raises no
exception for such input, so the result is always `ok`. -/
def detectBloomsCore (d : BloomDetector) (ndvi_data : List ℚ)
    (evi_data : Option (List ℚ)) (thresholdArg : Option ℚ)
    (dates : Option (List String)) : Except String (List BloomEvent) :=
  if ndvi_data.length = 0 then .ok []
  else
    let threshold := thresholdArg.getD d.bloom_threshold
    if ndvi_data.length = 1 then
      let value := ndvi_data.getD 0 0
      if threshold ≤ value then
        .ok [{ type := "single_observation", ndvi := some value,
               is_blooming := some true, confidence := calcConfidence d value }]
      else .ok []
    else
      let peaks := findPeaks ndvi_data threshold 2 0.1
      if peaks.length = 0 then
        let highs := ndvi_data.filter (fun v => threshold ≤ v)
        if 2 ≤ highs.length then
          .ok [{ type := "sustained_bloom",
                 peak_ndvi := some (listMax ndvi_data),
                 mean_ndvi := some (highs.sum / highs.length),
                 duration_observations := some (highs.length : ℤ),
                 confidence := 0.7 }]
        else .ok []
      else .ok (peaks.map (mkPeakEvent d ndvi_data evi_data dates))

/-- Public `detect_blooms`: any internal exception is caught and converted
to the empty event list. -/
def detect_blooms (d : BloomDetector) (ndvi_data : List ℚ)
    (evi_data : Option (List ℚ)) (thresholdArg : Option ℚ)
    (dates : Option (List String)) : List BloomEvent :=
  match detectBloomsCore d ndvi_data evi_data thresholdArg dates with
  | .ok events => events
  | .error _ => []

/-! ## Trend analysis (`BloomDetector.analyze_trends`) -/

/-- `scipy.stats.linregress(x, y)`, returning `(slope, intercept, r)`.
Raises (errors) when all x values are identical; `r` uses the float square
root model `sqrtQ` and is clipped to `[-1, 1]`, with `r = 0` when either
sum of squares vanishes. -/
def linregressQ (x y : List ℚ) : Except String (ℚ × ℚ × ℚ) :=
  if x.all (fun v => v = x.headD 0) then
    .error "Cannot calculate a linear regression if all x values are identical"
  else
    let xm := listMean x
    let ym := listMean y
    let ssxm := listMean (x.map (fun v => (v - xm) ^ 2))
    let ssym := listMean (y.map (fun v => (v - ym) ^ 2))
    let ssxym := listMean ((x.zip y).map (fun p => (p.1 - xm) * (p.2 - ym)))
    let slope := ssxym / ssxm
    let intercept := ym - slope * xm
    let r := if ssxm = 0 ∨ ssym = 0 then 0
      else npClip (-1) 1 (ssxym / sqrtQ (ssxm * ssym))
    .ok (slope, intercept, r)

/-- `_interpret_trend` of `BloomDetector`. -/
def interpretTrend (slope r2 : ℚ) : String :=
  if r2 < 0.3 then "No clear trend (low correlation)"
  else if |slope| < 0.01 then "Stable bloom intensity"
  else if 0 < slope then
    if 0.05 < slope then
      "Strong increase in bloom intensity - may indicate favorable conditions"
    else "Moderate increase in bloom intensity"
  else
    if slope < -0.05 then
      "Strong decrease in bloom intensity - may indicate stress or climate change"
    else "Moderate decrease in bloom intensity"

/-- One entry of the `peak_ndvi_trend` / `average_ndvi_trend` dictionaries. -/
structure TrendEntry where
  slope : ℚ
  direction : String
  r_squared : ℚ
  interpretation : Option String := none
deriving DecidableEq

/-- The `bloom_frequency` statistics. -/
structure FreqStats where
  average : ℚ
  min : ℕ
  max : ℕ
deriving DecidableEq

/-- One year-over-year percent change record. -/
structure YoYChange where
  from_year : ℤ
  to_year : ℤ
  percent_change : ℚ
deriving DecidableEq

/-- Result dictionary of `analyze_trends`; every key is optional because the
source builds it incrementally. -/
structure TrendsResult where
  status : Option String := none
  message : Option String := none
  peak_ndvi_trend : Option TrendEntry := none
  average_ndvi_trend : Option TrendEntry := none
  bloom_frequency : Option FreqStats := none
  year_over_year_changes : Option (List YoYChange) := none
deriving DecidableEq

/-- One yearly summary consumed by `analyze_trends`: the `'year'` key is
accessed directly (so required); `peak_ndvi` and `average_ndvi` are read
with `.get(..., 0)`. -/
structure YearEntry where
  year : ℤ
  peak_ndvi : Option ℚ := none
  average_ndvi : Option ℚ := none
  bloom_events : List BloomEvent := []
deriving DecidableEq

instance : Inhabited YearEntry := ⟨⟨0, none, none, []⟩⟩

/-- Loop body of the year-over-year pass: each step divides by the previous
peak value, raising `ZeroDivisionError` when it is zero. -/
def yoyGo : ℤ → ℚ → List (ℤ × ℚ) → Except String (List YoYChange)
  | _, _, [] => .ok []
  | py, pp, (y, p) :: rest =>
    if pp = 0 then .error "float division by zero"
    else
      match yoyGo y p rest with
      | .error e => .error e
      | .ok tail =>
        .ok ({ from_year := py, to_year := y, percent_change := (p - pp) / pp * 100 } :: tail)

/-- The year-over-year percent-change computation over parallel year and
peak lists. -/
def yoyChanges (years : List ℤ) (peaks : List ℚ) : Except String (List YoYChange) :=
  match years.zip peaks with
  | [] => .ok []
  | (y, p) :: rest => yoyGo y p rest

/-- Body of `analyze_trends` (inside its `try`). -/
def analyzeTrendsCore (entries : List YearEntry) : Except String TrendsResult :=
  if entries.length = 0 then .ok { status := some "no_data" }
  else
    let years : List ℤ := entries.map (fun en => en.year)
    let peak_ndvis : List ℚ := entries.map (fun en => en.peak_ndvi.getD 0)
    let avg_ndvis : List ℚ := entries.map (fun en => en.average_ndvi.getD 0)
    match (if 2 ≤ years.length then
        match linregressQ (years.map (fun y : ℤ => (y : ℚ))) peak_ndvis with
        | .error e => .error e
        | .ok rp =>
          match linregressQ (years.map (fun y : ℤ => (y : ℚ))) avg_ndvis with
          | .error e => .error e
          | .ok ra =>
            let event_counts := entries.map (fun en => en.bloom_events.length)
            let freq := if event_counts.length ≠ 0 then
                some { average := (event_counts.map (fun c => (c : ℚ))).sum / event_counts.length,
                       min := listMinN event_counts, max := listMaxN event_counts }
              else none
            .ok (some (rp, ra, freq))
      else .ok none : Except String _) with
    | .error e => .error e
    | .ok reg =>
      match (if 2 ≤ entries.length then
          match yoyChanges years peak_ndvis with
          | .error e => .error e
          | .ok cs => .ok (some cs)
        else .ok none : Except String _) with
      | .error e => .error e
      | .ok yoy =>
        .ok
          { peak_ndvi_trend := reg.map (fun t =>
              { slope := t.1.1, direction := if (0 : ℚ) < t.1.1 then "increasing" else "decreasing",
                r_squared := t.1.2.2 ^ 2,
                interpretation := some (interpretTrend t.1.1 (t.1.2.2 ^ 2)) })
            average_ndvi_trend := reg.map (fun t =>
              { slope := t.2.1.1, direction := if (0 : ℚ) < t.2.1.1 then "increasing" else "decreasing",
                r_squared := t.2.1.2.2 ^ 2 })
            bloom_frequency := reg.bind (fun t => t.2.2)
            year_over_year_changes := yoy }

/-- Public `analyze_trends`: any internal exception is caught and converted
to an error-status record carrying the message. -/
def analyze_trends (entries : List YearEntry) : TrendsResult :=
  match analyzeTrendsCore entries with
  | .ok r => r
  | .error e => { status := some "error", message := some e }

/-! ## Calendar dates

The predictor parses and formats `%Y-%m-%d` strings and does day arithmetic
through `datetime`/`timedelta`.  Dates are modelled by year/month/day
records plus the proleptic-Gregorian ordinal (Python `date.toordinal`,
with `0001-01-01` as day 1). -/

/-- A parsed calendar date (`datetime` restricted to its date part). -/
structure PDate where
  year : ℕ
  month : ℕ
  day : ℕ
deriving DecidableEq

/-- Gregorian leap-year rule. -/
def isLeap (y : ℕ) : Bool := y % 4 = 0 && (y % 100 != 0 || y % 400 = 0)

/-- Number of days in a month. -/
def daysInMonth (y m : ℕ) : ℕ :=
  if m = 2 then (if isLeap y then 29 else 28)
  else if m = 4 ∨ m = 6 ∨ m = 9 ∨ m = 11 then 30
  else 31

/-- Days before the first of month `m` within year `y`. -/
def daysBeforeMonth (y m : ℕ) : ℕ :=
  [0, 31, 59, 90, 120, 151, 181, 212, 243, 273, 304, 334].getD (m - 1) 0
    + (if 2 < m ∧ isLeap y then 1 else 0)

/-- Days before January 1 of year `y` (Python `_days_before_year`). -/
def daysBeforeYear (y : ℕ) : ℕ :=
  365 * (y - 1) + (y - 1) / 4 - (y - 1) / 100 + (y - 1) / 400

/-- `date.toordinal`. -/
def toOrdinal (d : PDate) : ℕ :=
  daysBeforeYear d.year + daysBeforeMonth d.year d.month + d.day

/-- `timetuple().tm_yday`: day of year, 1-based. -/
def ydayOf (d : PDate) : ℕ := daysBeforeMonth d.year d.month + d.day

/-- Interpret a digit-character list as a number (`none` on any non-digit
or empty input). -/
def digitsToNat (cs : List Char) : Option ℕ :=
  if cs.isEmpty ∨ ¬ cs.all Char.isDigit then none
  else some (cs.foldl (fun acc c => acc * 10 + (c.toNat - 48)) 0)

/-- Split a character list at a separator character. -/
def splitOnChar (sep : Char) : List Char → List (List Char)
  | [] => [[]]
  | c :: t =>
    let rest := splitOnChar sep t
    if c = sep then [] :: rest
    else (c :: rest.headD []) :: rest.tail

/-- `datetime.strptime(s, %Y-%m-%d)`: a 4-digit year, 1- or 2-digit month
and day, validated as a real calendar date (years 1-9999). -/
def parsePDate (s : String) : Option PDate :=
  match splitOnChar (Char.ofNat 45) s.toList with
  | [ys, ms, ds] => do
    let y ← digitsToNat ys
    let m ← digitsToNat ms
    let dd ← digitsToNat ds
    if ys.length = 4 ∧ ms.length ≤ 2 ∧ ds.length ≤ 2
        ∧ 1 ≤ y ∧ 1 ≤ m ∧ m ≤ 12 ∧ 1 ≤ dd ∧ dd ≤ daysInMonth y m then
      some ⟨y, m, dd⟩
    else none
  | _ => none

/-- Left-pad a natural number with zeros to `w` digits. -/
def padNum (w : ℕ) (n : ℕ) : String :=
  let s := toString n
  String.mk (List.replicate (w - s.length) (Char.ofNat 48)) ++ s

/-- `strftime(%Y-%m-%d)` for a date record. -/
def fmtPDate (d : PDate) : String :=
  padNum 4 d.year ++ "-" ++ padNum 2 d.month ++ "-" ++ padNum 2 d.day

/-- Inverse of `toordinal` (standard era-based civil-from-days algorithm),
for formatting computed ordinals. -/
def civilFromOrdinal (o : ℤ) : ℤ × ℕ × ℕ :=
  let z := o + 305
  let era := Int.fdiv z 146097
  let doe := (z - era * 146097).toNat
  let yoe := (doe - doe / 1460 + doe / 36524 - doe / 146096) / 365
  let doy := doe - (365 * yoe + yoe / 4 - yoe / 100)
  let mp := (5 * doy + 2) / 153
  let dd := doy - (153 * mp + 2) / 5 + 1
  let m := if mp < 10 then mp + 3 else mp - 9
  ((yoe : ℤ) + era * 400 + (if m ≤ 2 then 1 else 0), m, dd)

/-- `strftime(%Y-%m-%d)` for an ordinal day number. -/
def fmtOrdinal (o : ℤ) : String :=
  let c := civilFromOrdinal o
  padNum 4 c.1.toNat ++ "-" ++ padNum 2 c.2.1 ++ "-" ++ padNum 2 c.2.2

/-! ## Bloom predictor (`bloom_predictor.py`) -/

/-- The `trend` sub-dictionary of a trend-adjusted prediction. -/
structure TrendInfo where
  direction : String
  rate_days_per_year : ℚ
  magnitude : String
  r_squared : ℚ
deriving DecidableEq

/-- Dictionary returned by one prediction sub-method: dates are carried as
proleptic ordinals (the source round-trips them through `%Y-%m-%d`
strings, which is injective on valid dates). -/
structure MethodPrediction where
  method : String
  predicted_date : Option ℤ := none
  predicted_peak_ndvi : Option ℚ := none
  uncertainty_days : Option ℤ := none
  confidence : Option ℚ := none
  date_range : Option (ℤ × ℤ) := none
  adjustment_applied : Option ℤ := none
  adjustment_reason : Option String := none
  trend : Option TrendInfo := none
  interpretation : Option String := none
deriving DecidableEq

/-- The `date_range` of the ensemble result. -/
structure DateRange where
  earliest : ℤ
  most_likely : ℤ
  latest : ℤ
deriving DecidableEq

/-- Per-method summary inside the ensemble result. -/
structure MethodSummary where
  date : ℤ
  confidence : ℚ
  weight : ℚ
deriving DecidableEq

/-- Opaque `location` value passed through into the prediction output. -/
structure LocationDict where
  lat : ℚ
  lon : ℚ
deriving DecidableEq

/-- Result dictionary of `predict_next_bloom` / `_ensemble_prediction`. -/
structure PredResult where
  status : Option String := none
  message : Option String := none
  confidence : Option ℚ := none
  predicted_date : Option ℤ := none
  confidence_level : Option String := none
  uncertainty_days : Option ℤ := none
  date_range : Option DateRange := none
  prediction_methods : List (String × MethodSummary) := []
  recommendations : List String := []
  based_on_years : Option ℕ := none
  historical_bloom_dates : List String := []
  current_date : Option String := none
  location : Option LocationDict := none
deriving DecidableEq

/-- One historical bloom event as consumed by the predictor (`peak_date`
string and `peak_ndvi` read with `.get(..., 0)`). -/
structure HistEvent where
  peak_date : Option String := none
  peak_ndvi : Option ℚ := none
deriving DecidableEq

/-- One year of historical bloom analysis. -/
structure HistYearly where
  year : Option ℤ := none
  bloom_events : List HistEvent := []
deriving DecidableEq

/-- `_statistical_prediction`: average day of year, truncated-int mean
month, next-occurrence year choice, and the fixed confidence ramp. -/
def statisticalPrediction (bloom_dates : List PDate) (peak_ndvi_values : List ℚ)
    (current : PDate) : MethodPrediction :=
  let days_of_year : List ℚ := bloom_dates.map (fun d => (ydayOf d : ℚ))
  let avg_doy : ℤ := pyInt (listMean days_of_year)
  let std_doy : ℤ := if 1 < days_of_year.length then pyInt (stdQ days_of_year) else 14
  let avg_peak_ndvi := listMean peak_ndvi_values
  let avg_month : ℤ := pyInt (listMean (bloom_dates.map (fun d => (d.month : ℚ))))
  let next_year : ℕ := if (current.month : ℤ) < avg_month then current.year
    else current.year + 1
  let predicted : ℤ := (toOrdinal ⟨next_year, 1, 1⟩ : ℤ) + (avg_doy - 1)
  { method := "statistical_average"
    predicted_date := some predicted
    predicted_peak_ndvi := some avg_peak_ndvi
    uncertainty_days := some std_doy
    confidence := some (min (0.6 + (bloom_dates.length : ℚ) * 0.05) 0.85)
    date_range := some (predicted - std_doy, predicted + std_doy) }

/-- Python `max(blooms, key=lambda x: x[1])`: first maximal element. -/
def maxBySnd (l : List (PDate × ℚ)) : PDate × ℚ :=
  match l with
  | [] => (⟨1, 1, 1⟩, 0)
  | h :: t => t.foldl (fun b x => if b.2 < x.2 then x else b) h

/-- `_pattern_based_prediction`: strongest peak per year, median day of
year, and a fixed vegetation-type calendar shift. -/
def patternBasedPrediction (bloom_dates : List PDate) (peak_ndvi_values : List ℚ)
    (current : PDate) (vegetation_type : Option String) : MethodPrediction :=
  let pairs := bloom_dates.zip peak_ndvi_values
  let yearsOrd : List ℕ := (pairs.map (fun pr => pr.1.year)).dedup
  let primary_blooms : List PDate :=
    yearsOrd.map (fun y => (maxBySnd (pairs.filter (fun pr => pr.1.year = y))).1)
  let days_of_year : List ℚ := primary_blooms.map (fun d => (ydayOf d : ℚ))
  let median_doy : ℤ := pyInt (medianQ days_of_year)
  let vt := vegetation_type.getD ""
  let adjustment : ℤ := if vt = "" then 0
    else if strContains vt "desert" then -5
    else if strContains vt "tree" then -7
    else 0
  let predicted_doy : ℤ := median_doy + adjustment
  let avg_month : ℤ := pyInt (medianQ (primary_blooms.map (fun d => (d.month : ℚ))))
  let next_year : ℕ := if (current.month : ℤ) < avg_month then current.year
    else current.year + 1
  let predicted : ℤ := (toOrdinal ⟨next_year, 1, 1⟩ : ℤ) + (predicted_doy - 1)
  { method := "pattern_based"
    predicted_date := some predicted
    predicted_peak_ndvi := some (medianQ peak_ndvi_values)
    uncertainty_days := some (if 1 < days_of_year.length then pyInt (stdQ days_of_year) else 10)
    confidence := some (min (0.65 + (primary_blooms.length : ℚ) * 0.05) 0.88)
    adjustment_applied := some adjustment
    adjustment_reason := some (if vt = "" then "None"
      else "Climate trend adjustment for " ++ vt) }

/-- `_interpret_trend` of `BloomPredictor`. -/
def interpretTrendPred (days_per_year r2 : ℚ) : String :=
  if r2 < 0.3 then "No clear trend - blooms occur at variable times each year"
  else if |days_per_year| < 0.5 then "Stable bloom timing - no significant shift detected"
  else if days_per_year < -2 then
    "Strong trend: Blooms occurring significantly earlier each year (likely climate impact)"
  else if days_per_year < 0 then
    "Moderate trend: Blooms shifting slightly earlier (possible climate signal)"
  else if 2 < days_per_year then
    "Blooms occurring significantly later each year (investigate cause)"
  else "Slight trend toward later blooms"

/-- `_trend_adjusted_prediction`: regression of day of year on calendar
year once at least 3 distinct years exist, else delegate to the
statistical method. -/
def trendAdjustedPrediction (bloom_dates : List PDate) (peak_ndvi_values : List ℚ)
    (current : PDate) : Except String MethodPrediction :=
  if bloom_dates.length < 3 then
    .ok (statisticalPrediction bloom_dates peak_ndvi_values current)
  else
    let years : List ℚ := bloom_dates.map (fun d => (d.year : ℚ))
    let days_of_year : List ℚ := bloom_dates.map (fun d => (ydayOf d : ℚ))
    if 3 ≤ (bloom_dates.map (fun d => d.year)).dedup.length then
      match linregressQ years days_of_year with
      | .error e => .error e
      | .ok reg =>
      let slope := reg.1
      let intercept := reg.2.1
      let r := reg.2.2
      let avg_month : ℤ := pyInt (listMean (bloom_dates.map (fun d => (d.month : ℚ))))
      let next_year : ℕ := if (current.month : ℤ) < avg_month then current.year
        else current.year + 1
      let predicted_doy : ℤ := pyInt (slope * (next_year : ℚ) + intercept)
      let predicted : ℤ := (toOrdinal ⟨next_year, 1, 1⟩ : ℤ) + (predicted_doy - 1)
      let trend_direction := if slope < 0 then "earlier" else "later"
      let trend_magnitude := |slope|
      let conf := min (0.7 + |r| * 0.2) 0.92
      .ok { method := "trend_adjusted"
            predicted_date := some predicted
            predicted_peak_ndvi := some (listMean peak_ndvi_values)
            uncertainty_days := some (pyInt (stdQ days_of_year))
            confidence := some conf
            trend := some { direction := trend_direction, rate_days_per_year := slope,
                            magnitude := if 2 < trend_magnitude then "strong"
                              else if 0.5 < trend_magnitude then "moderate" else "weak",
                            r_squared := r ^ 2 }
            interpretation := some (interpretTrendPred slope (r ^ 2)) }
    else .ok (statisticalPrediction bloom_dates peak_ndvi_values current)

/-- `_confidence_level`: fixed score-to-label mapping. -/
def confidenceLevel (score : ℚ) : String :=
  if 0.80 ≤ score then "Very High"
  else if 0.65 ≤ score then "High"
  else if 0.50 ≤ score then "Moderate"
  else if 0.35 ≤ score then "Low"
  else "Very Low"

/-- `_generate_recommendations`: deterministic strings from the predicted
date, confidence tier, and uncertainty tier. -/
def generateRecommendations (predicted_date : ℤ) (confidence : ℚ)
    (uncertainty : ℤ) : List String :=
  let monitoring_start := predicted_date - (uncertainty + 14)
  ["Begin monitoring from " ++ fmtOrdinal monitoring_start ++ " ("
      ++ toString (uncertainty + 14) ++ " days before predicted bloom)"]
    ++ (if 0.75 ≤ confidence then
          ["High confidence prediction - suitable for planning activities",
           "Consider advance logistics preparation"]
        else if 0.55 ≤ confidence then
          ["Moderate confidence - maintain flexible planning",
           "Monitor weather conditions closely"]
        else
          ["Low confidence - use as rough estimate only",
           "Require real-time monitoring for confirmation"])
    ++ (if 21 < uncertainty then
          ["High uncertainty (±" ++ toString uncertainty ++ " days) - check weekly"]
        else if 14 < uncertainty then
          ["Moderate uncertainty (±" ++ toString uncertainty ++ " days) - check bi-weekly"]
        else
          ["Low uncertainty (±" ++ toString uncertainty ++ " days) - reliable timeframe"])
    ++ ["Validate prediction with ground observations",
        "Update prediction as season approaches"]

/-- Fixed reference date of `_ensemble_prediction`: `datetime(2025, 1, 1)`. -/
def referenceDate : ℤ := (toOrdinal ⟨2025, 1, 1⟩ : ℤ)

/-- Per-method summaries of the ensemble result; direct dictionary indexing
(`pred[...]`, `weights[method]`) raises on a missing key. -/
def buildMethods (weights : List (String × ℚ)) :
    List (String × MethodPrediction) → Except String (List (String × MethodSummary))
  | [] => .ok []
  | mp :: rest =>
    match mp.2.predicted_date, alookup mp.1 weights with
    | some dt, some w =>
      match buildMethods weights rest with
      | .error e => .error e
      | .ok tail =>
        .ok ((mp.1, { date := dt, confidence := mp.2.confidence.getD 0, weight := w }) :: tail)
    | none, _ => .error "KeyError"
    | some _, none => .error "KeyError"

/-- `_ensemble_prediction`: weight the sub-methods (reweighted with at
least 5 years of history), sum the weighted day-offsets from the reference
date and the weighted confidences, and attach uncertainty, level, and
recommendations. -/
def ensembleCore (predictions : List (String × MethodPrediction)) (n_years : ℕ) :
    Except String PredResult :=
  let wStat : ℚ := if 5 ≤ n_years then 0.30 else 0.4
  let wTrend : ℚ := if 5 ≤ n_years then 0.35 else 0.25
  let weights : List (String × ℚ) :=
    [("statistical", wStat), ("pattern_based", 0.35), ("trend_adjusted", wTrend)]
  let contribs : List (ℚ × ℚ) := weights.filterMap (fun mw =>
    (alookup mw.1 predictions).bind (fun p =>
      p.predicted_date.map (fun dt =>
        (((dt - referenceDate : ℤ) : ℚ) * mw.2, p.confidence.getD 0.5 * mw.2))))
  let avg_days : ℚ := (contribs.map (fun c => c.1)).sum
  let avg_confidence : ℚ := (contribs.map (fun c => c.2)).sum
  let final_date : ℤ := referenceDate + pyInt avg_days
  let all_dates : List ℤ := predictions.filterMap (fun mp => mp.2.predicted_date)
  let uncertainty : ℤ :=
    if 1 < all_dates.length then
      pyInt (stdQ (all_dates.map (fun dd => ((dd - listMinZ all_dates : ℤ) : ℚ)))) + 7
    else 14
  match buildMethods weights predictions with
  | .error e => .error e
  | .ok methods =>
    .ok { status := some "success"
          predicted_date := some final_date
          confidence := some avg_confidence
          confidence_level := some (confidenceLevel avg_confidence)
          uncertainty_days := some uncertainty
          date_range := some { earliest := final_date - uncertainty,
                               most_likely := final_date,
                               latest := final_date + uncertainty }
          prediction_methods := methods
          recommendations := generateRecommendations final_date avg_confidence uncertainty }

/-- Collect all parseable `(peak_date, peak_ndvi)` pairs across the
supplied history (the inner `try/except: pass` swallows parse failures). -/
def collectPairs (historical : List HistYearly) : List (PDate × ℚ) :=
  historical.flatMap (fun yd => yd.bloom_events.filterMap (fun e =>
    match e.peak_date with
    | some pd =>
      if pd = "" then none
      else (parsePDate pd).map (fun dt => (dt, e.peak_ndvi.getD 0))
    | none => none))

/-- The effective current-date string: `current_date` unless it is missing
or falsy, in which case `datetime.now()` (modelled by `today`) formatted. -/
def effCurrentDate (current_date : Option String) (today : PDate) : String :=
  match current_date with
  | none => fmtPDate today
  | some s => if s = "" then fmtPDate today else s

/-- Body of `BloomPredictor.predict_next_bloom` (inside its `try`); `today`
models `datetime.now()` for a missing or falsy `current_date`. -/
def predictNextBloomCore (historical : List HistYearly) (location : LocationDict)
    (vegetation_type : Option String) (current_date : Option String)
    (today : PDate) : Except String PredResult :=
  let cds : String := effCurrentDate current_date today
  match parsePDate cds with
  | none => .error "time data does not match format"
  | some current =>
    if historical.length = 0 then
      .ok { status := some "insufficient_data",
            message := some "No historical bloom data available for prediction",
            confidence := some 0 }
    else
      let pairs := collectPairs historical
      if pairs.length < 2 then
        .ok { status := some "insufficient_data",
              message := some "Need at least 2 years of historical data for prediction",
              confidence := some 0 }
      else
        let bloom_dates := pairs.map (fun pr => pr.1)
        let peak_ndvi_values := pairs.map (fun pr => pr.2)
        let stat := statisticalPrediction bloom_dates peak_ndvi_values current
        let pat := patternBasedPrediction bloom_dates peak_ndvi_values current vegetation_type
        match trendAdjustedPrediction bloom_dates peak_ndvi_values current with
        | .error e => .error e
        | .ok tre =>
          match ensembleCore
              [("statistical", stat), ("pattern_based", pat), ("trend_adjusted", tre)]
              historical.length with
          | .error e => .error e
          | .ok final =>
            .ok { final with
                  based_on_years := some historical.length
                  historical_bloom_dates :=
                    (bloom_dates.drop (bloom_dates.length - 5)).map fmtPDate
                  current_date := some cds
                  location := some location }

/-- Public `predict_next_bloom`: any internal exception is caught and
converted to an error-status record with confidence 0. -/
def predict_next_bloom (historical : List HistYearly) (location : LocationDict)
    (vegetation_type : Option String) (current_date : Option String)
    (today : PDate) : PredResult :=
  match predictNextBloomCore historical location vegetation_type current_date today with
  | .ok r => r
  | .error e => { status := some "error", message := some e, confidence := some 0 }

/-- A payload that is not demo mode, has no pre-calculated values, and
carries red and nir band assets: it exercises the band-extraction path. -/
def bandPayload : SatelliteData := { bands := [("red", "b1"), ("nir", "b2")] }

/-- A deterministic sample stream: draws 10000-19999 are one half, all
others zero. -/
def splitStream : Rng := ⟨fun k => if 10000 ≤ k ∧ k < 20000 then 1/2 else 0, 0⟩

/-! ## Supporting lemmas -/

theorem getD_mem {α : Type} (l : List α) (i : ℕ) (d : α) (h : i < l.length) :
    l.getD i d ∈ l := by
  induction l generalizing i with
  | nil => simp at h
  | cons a t ih =>
    cases i with
    | zero => simp
    | succ i =>
      simp only [List.getD_cons_succ]
      exact List.mem_cons_of_mem a (ih i (by simpa using h))

theorem findPlateauEnd_ge (xs : List ℚ) (iMax : ℕ) (v : ℚ) :
    ∀ fuel j, j ≤ findPlateauEnd xs iMax v fuel j := by
  intro fuel
  induction fuel with
  | zero => intro j; simp [findPlateauEnd]
  | succ fuel ih =>
    intro j
    rw [findPlateauEnd]
    split
    · exact le_trans (Nat.le_succ j) (ih (j + 1))
    · exact le_refl j

theorem findPlateauEnd_le (xs : List ℚ) (iMax : ℕ) (v : ℚ) :
    ∀ fuel j, j ≤ iMax → findPlateauEnd xs iMax v fuel j ≤ iMax := by
  intro fuel
  induction fuel with
  | zero => intro j hj; simpa [findPlateauEnd] using hj
  | succ fuel ih =>
    intro j hj
    rw [findPlateauEnd]
    split
    · exact ih (j + 1) (by omega)
    · exact hj

theorem localMaximaLoop_mem (xs : List ℚ) (iMax : ℕ) :
    ∀ fuel i m, 1 ≤ i → m ∈ localMaximaLoop xs iMax fuel i →
      1 ≤ m ∧ m + 1 ≤ iMax := by
  intro fuel
  induction fuel with
  | zero => intro i m _ h; simp [localMaximaLoop] at h
  | succ fuel ih =>
    intro i m hi h
    rw [localMaximaLoop] at h
    by_cases h1 : i < iMax
    · rw [if_pos h1] at h
      by_cases h2 : xs.getD (i - 1) 0 < xs.getD i 0
      · rw [if_pos h2] at h
        simp only at h
        by_cases h3 :
            xs.getD (findPlateauEnd xs iMax (xs.getD i 0) iMax (i + 1)) 0 < xs.getD i 0
        · rw [if_pos h3] at h
          rcases List.mem_cons.mp h with h4 | h4
          · have hge := findPlateauEnd_ge xs iMax (xs.getD i 0) iMax (i + 1)
            have hle := findPlateauEnd_le xs iMax (xs.getD i 0) iMax (i + 1) (by omega)
            subst h4
            omega
          · exact ih _ m (by omega) h4
        · rw [if_neg h3] at h
          exact ih _ m (by omega) h
      · rw [if_neg h2] at h
        exact ih _ m (by omega) h
    · rw [if_neg h1] at h
      simp at h

theorem localMaxima_mem {xs : List ℚ} {m : ℕ} (h : m ∈ localMaxima xs) :
    1 ≤ m ∧ m + 1 ≤ xs.length - 1 :=
  localMaximaLoop_mem xs (xs.length - 1) xs.length 1 m (le_refl 1) h

theorem findPeaks_mem {xs : List ℚ} {height : ℚ} {dist : ℕ} {promMin : ℚ} {p : ℕ}
    (hp : p ∈ findPeaks xs height dist promMin) :
    1 ≤ p ∧ p + 1 ≤ xs.length - 1 := by
  unfold findPeaks at hp
  have hp2 := (List.mem_filter.mp hp).1
  rcases List.mem_map.mp hp2 with ⟨i, hi, rfl⟩
  have hi2 := (List.mem_filter.mp hi).1
  have hlt := List.mem_range.mp hi2
  have hmem := getD_mem _ i 0 hlt
  have hmem2 := (List.mem_filter.mp hmem).1
  exact localMaxima_mem hmem2

theorem startLoop_le (xs : List ℚ) : ∀ i, startLoop xs i ≤ i + 1 := by
  intro i
  induction i with
  | zero => simp [startLoop]
  | succ i ih =>
    rw [startLoop]
    split
    · exact le_refl _
    · exact le_trans ih (by omega)

theorem findBloomStart_le (xs : List ℚ) (p : ℕ) : findBloomStart xs p ≤ p := by
  unfold findBloomStart
  split
  · omega
  · have := startLoop_le xs (p - 1)
    omega

theorem endScan_bounds (t : ℚ) (xs : List ℚ) (n : ℕ) :
    ∀ fuel i, i ≤ n - 1 →
      i ≤ endScan t xs n fuel i ∧ endScan t xs n fuel i ≤ n - 1 := by
  intro fuel
  induction fuel with
  | zero => intro i hi; simp only [endScan]; omega
  | succ fuel ih =>
    intro i hi
    rw [endScan]
    by_cases h1 : i = n - 1
    · rw [if_pos h1]; omega
    · rw [if_neg h1]
      split
      · have := ih (i + 1) (by omega)
        omega
      · split
        · omega
        · have := ih (i + 1) (by omega)
          omega

theorem findBloomEnd_bounds (d : BloomDetector) (xs : List ℚ) (p : ℕ)
    (hp : p ≤ xs.length - 1) :
    p ≤ findBloomEnd d xs p ∧ findBloomEnd d xs p ≤ xs.length - 1 := by
  unfold findBloomEnd
  split
  · omega
  · have := endScan_bounds d.bloom_threshold xs xs.length xs.length (p + 1) (by omega)
    omega

theorem mkPeakEvent_start_index (d : BloomDetector) (xs : List ℚ)
    (evi : Option (List ℚ)) (dates : Option (List String)) (p : ℕ) :
    (mkPeakEvent d xs evi dates p).start_index = some (findBloomStart xs p) := rfl

theorem mkPeakEvent_peak_index (d : BloomDetector) (xs : List ℚ)
    (evi : Option (List ℚ)) (dates : Option (List String)) (p : ℕ) :
    (mkPeakEvent d xs evi dates p).peak_index = some p := rfl

theorem mkPeakEvent_end_index (d : BloomDetector) (xs : List ℚ)
    (evi : Option (List ℚ)) (dates : Option (List String)) (p : ℕ) :
    (mkPeakEvent d xs evi dates p).end_index = some (findBloomEnd d xs p) := rfl

theorem mkPeakEvent_duration (d : BloomDetector) (xs : List ℚ)
    (evi : Option (List ℚ)) (dates : Option (List String)) (p : ℕ) :
    (mkPeakEvent d xs evi dates p).duration_observations =
      some ((findBloomEnd d xs p : ℤ) - (findBloomStart xs p : ℤ) + 1) := rfl

theorem mkPeakEvent_type (d : BloomDetector) (xs : List ℚ)
    (evi : Option (List ℚ)) (dates : Option (List String)) (p : ℕ) :
    (mkPeakEvent d xs evi dates p).type = "peak_bloom" := rfl

/-- Any event of the `detect_blooms` body that carries a peak index is a
`peak_bloom` event built by `mkPeakEvent` from an accepted peak of a
series of length at least 2. -/
theorem detectBloomsCore_indexed_event {d : BloomDetector} {xs : List ℚ}
    {evi : Option (List ℚ)} {th : Option ℚ} {dates : Option (List String)}
    {evs : List BloomEvent} {e : BloomEvent}
    (hcore : detectBloomsCore d xs evi th dates = .ok evs)
    (hm : e ∈ evs) {p : ℕ} (hp : e.peak_index = some p) :
    e = mkPeakEvent d xs evi dates p ∧
      p ∈ findPeaks xs (th.getD d.bloom_threshold) 2 0.1 ∧ 2 ≤ xs.length := by
  simp only [detectBloomsCore] at hcore
  by_cases h0 : xs.length = 0
  · rw [if_pos h0] at hcore
    injection hcore with h2
    subst h2
    simp at hm
  · rw [if_neg h0] at hcore
    by_cases h1 : xs.length = 1
    · rw [if_pos h1] at hcore
      split at hcore <;> injection hcore with h2 <;> subst h2
      · simp only [List.mem_singleton] at hm
        subst hm
        simp at hp
      · simp at hm
    · rw [if_neg h1] at hcore
      split at hcore
      · split at hcore <;> injection hcore with h2 <;> subst h2
        · simp only [List.mem_singleton] at hm
          subst hm
          simp at hp
        · simp at hm
      · injection hcore with h2
        subst h2
        simp only [List.mem_map] at hm
        rcases hm with ⟨p0, hp0, rfl⟩
        rw [mkPeakEvent_peak_index] at hp
        have hpp : p0 = p := by simpa using hp
        subst hpp
        exact ⟨rfl, hp0, by omega⟩

/-- Transfer of the previous lemma through the exception wrapper. -/
theorem detect_blooms_indexed_event {d : BloomDetector} {xs : List ℚ}
    {evi : Option (List ℚ)} {th : Option ℚ} {dates : Option (List String)}
    {e : BloomEvent} (he : e ∈ detect_blooms d xs evi th dates)
    {p : ℕ} (hp : e.peak_index = some p) :
    e = mkPeakEvent d xs evi dates p ∧
      p ∈ findPeaks xs (th.getD d.bloom_threshold) 2 0.1 ∧ 2 ≤ xs.length := by
  unfold detect_blooms at he
  cases hcore : detectBloomsCore d xs evi th dates with
  | ok evs =>
    rw [hcore] at he
    exact detectBloomsCore_indexed_event hcore he hp
  | error msg =>
    rw [hcore] at he
    simp at he

/-- Any `peak_bloom`-typed event of the `detect_blooms` body is built by
`mkPeakEvent` from an accepted peak. -/
theorem detectBloomsCore_peak_typed {d : BloomDetector} {xs : List ℚ}
    {evi : Option (List ℚ)} {th : Option ℚ} {dates : Option (List String)}
    {evs : List BloomEvent} {e : BloomEvent}
    (hcore : detectBloomsCore d xs evi th dates = .ok evs)
    (hm : e ∈ evs) (ht : e.type = "peak_bloom") :
    ∃ p, e = mkPeakEvent d xs evi dates p ∧
      p ∈ findPeaks xs (th.getD d.bloom_threshold) 2 0.1 := by
  simp only [detectBloomsCore] at hcore
  by_cases h0 : xs.length = 0
  · rw [if_pos h0] at hcore
    injection hcore with h2
    subst h2
    simp at hm
  · rw [if_neg h0] at hcore
    by_cases h1 : xs.length = 1
    · rw [if_pos h1] at hcore
      split at hcore <;> injection hcore with h2 <;> subst h2
      · simp only [List.mem_singleton] at hm
        subst hm
        simp at ht
      · simp at hm
    · rw [if_neg h1] at hcore
      split at hcore
      · split at hcore <;> injection hcore with h2 <;> subst h2
        · simp only [List.mem_singleton] at hm
          subst hm
          simp at ht
        · simp at hm
      · injection hcore with h2
        subst h2
        simp only [List.mem_map] at hm
        rcases hm with ⟨p0, hp0, rfl⟩
        exact ⟨p0, rfl, hp0⟩

/-- Transfer of the previous lemma through the exception wrapper. -/
theorem detect_blooms_peak_typed {d : BloomDetector} {xs : List ℚ}
    {evi : Option (List ℚ)} {th : Option ℚ} {dates : Option (List String)}
    {e : BloomEvent} (he : e ∈ detect_blooms d xs evi th dates)
    (ht : e.type = "peak_bloom") :
    ∃ p, e = mkPeakEvent d xs evi dates p ∧
      p ∈ findPeaks xs (th.getD d.bloom_threshold) 2 0.1 := by
  unfold detect_blooms at he
  cases hcore : detectBloomsCore d xs evi th dates with
  | ok evs =>
    rw [hcore] at he
    exact detectBloomsCore_peak_typed hcore he ht
  | error msg =>
    rw [hcore] at he
    simp at he

/-! ## Claim theorems -/

/-- C1: for the series `[0.2, 0.3, 0.45, 0.75, 0.5, 0.3]` with threshold
`0.4`, `detect_blooms` returns exactly one `peak_bloom` event with
`peak_index = 3` (peak value `0.75`), `start_index = 0` by the backward
scan, `end_index = 5` by the forward scan, confidence `0.95`, and the
intensity class of the mean of the values from start to end inclusive
(`"moderate"`, mean `5/12`). -/
theorem C1_example_series_single_peak :
    detect_blooms {} [0.2, 0.3, 0.45, 0.75, 0.5, 0.3] none (some 0.4) none =
      [{ type := "peak_bloom", peak_index := some 3, start_index := some 0,
         end_index := some 5, peak_ndvi := some 0.75, start_ndvi := some 0.2,
         end_ndvi := some 0.3, duration_observations := some 6,
         increase_rate := some (11/60), confidence := 0.95,
         intensity := some "moderate" }] ∧
    findBloomStart [0.2, 0.3, 0.45, 0.75, 0.5, 0.3] 3 = 0 ∧
    findBloomEnd {} [0.2, 0.3, 0.45, 0.75, 0.5, 0.3] 3 = 5 ∧
    calcIntensity [0.2, 0.3, 0.45, 0.75, 0.5, 0.3] = "moderate" := by
  with_unfolding_all decide

/-- C2: the elementwise NDVI and EVI computations always produce a finite
rational in `[-1, 1]` (the `FloatVal` special values are replaced by `0`
before clipping), and a zero denominator yields exactly `0`. -/
theorem C2_index_outputs_bounded :
    (∀ red nir : ℕ → ℚ, ∀ i,
      -1 ≤ ndviFromBands red nir i ∧ ndviFromBands red nir i ≤ 1) ∧
    (∀ red nir blue : ℕ → ℚ, ∀ i,
      -1 ≤ eviFromBands red nir blue i ∧ eviFromBands red nir blue i ≤ 1) ∧
    (∀ red nir : ℕ → ℚ, ∀ i, nir i + red i = 0 → ndviFromBands red nir i = 0) ∧
    (∀ red nir blue : ℕ → ℚ, ∀ i,
      nir i + 6 * red i - (15/2) * blue i + 1 = 0 → eviFromBands red nir blue i = 0) := by
  refine ⟨?_, ?_, ?_, ?_⟩
  · intro red nir i
    unfold ndviFromBands ndviPoint npClip
    constructor
    · exact le_max_left _ _
    · exact max_le (by norm_num) (min_le_left _ _)
  · intro red nir blue i
    unfold eviFromBands eviPoint npClip
    constructor
    · exact le_max_left _ _
    · exact max_le (by norm_num) (min_le_left _ _)
  · intro red nir i h
    unfold ndviFromBands ndviPoint fdiv
    rw [if_pos h]
    split
    · norm_num [nanToNum, npClip]
    · split <;> norm_num [nanToNum, npClip]
  · intro red nir blue i h
    unfold eviFromBands eviPoint fdiv
    rw [if_pos h]
    split
    · norm_num [fscale, nanToNum, npClip]
    · split <;> norm_num [fscale, nanToNum, npClip]

/-- Witness for C2 at the all-zero bands: the zero-denominator hypothesis
holds and the NDVI output is exactly 0. -/
theorem C2_witness :
    ((fun _ : ℕ => (0 : ℚ)) 0 + (fun _ : ℕ => (0 : ℚ)) 0 = 0) ∧
    ndviFromBands (fun _ => 0) (fun _ => 0) 0 = 0 :=
  ⟨by norm_num, C2_index_outputs_bounded.2.2.1 (fun _ => 0) (fun _ => 0) 0 (by norm_num)⟩

/-- C4 counterexample: detector with default configuration
(`bloom_threshold = 0.4`) called with the custom threshold `0.6` on
`[0.1, 0.8, 0.5, 0.45, 0.45, 0.45]`.  The returned `peak_bloom` event has
`end_index = 5` (the scan in the source compares against the configured
`0.4`), while the forward-scan rule with the effective per-call threshold
`0.6` stops at index 3. -/
theorem C4_counterexample :
    (detect_blooms {} [0.1, 0.8, 0.5, 0.45, 0.45, 0.45] none (some 0.6) none).map
        (fun e => (e.peak_index, e.end_index)) = [(some 1, some 5)] ∧
    findBloomEndClaim 0.6 [0.1, 0.8, 0.5, 0.45, 0.45, 0.45] 1 = 3 := by
  with_unfolding_all decide

/-- C4 amended: the end boundary of each `peak_bloom` event is found by the
stated forward scan, but comparing against the detector's configured
`bloom_threshold` (default `0.4`), not the per-call threshold. -/
theorem C4_amended_end_uses_configured_threshold (d : BloomDetector) (xs : List ℚ)
    (evi : Option (List ℚ)) (th : Option ℚ) (dates : Option (List String))
    (e : BloomEvent) (he : e ∈ detect_blooms d xs evi th dates)
    (ht : e.type = "peak_bloom") :
    ∃ p, e.peak_index = some p ∧
      e.end_index = some (findBloomEndClaim d.bloom_threshold xs p) := by
  rcases detect_blooms_peak_typed he ht with ⟨p, rfl, _⟩
  exact ⟨p, rfl, rfl⟩

/-- Witness for the amended C4 at the C1 input. -/
theorem C4_amended_witness :
    (mkPeakEvent {} [0.2, 0.3, 0.45, 0.75, 0.5, 0.3] none none 3
        ∈ detect_blooms {} [0.2, 0.3, 0.45, 0.75, 0.5, 0.3] none (some 0.4) none) ∧
    (mkPeakEvent {} [0.2, 0.3, 0.45, 0.75, 0.5, 0.3] none none 3).type = "peak_bloom" ∧
    (∃ p, (mkPeakEvent {} [0.2, 0.3, 0.45, 0.75, 0.5, 0.3] none none 3).peak_index = some p ∧
      (mkPeakEvent {} [0.2, 0.3, 0.45, 0.75, 0.5, 0.3] none none 3).end_index =
        some (findBloomEndClaim (0.4 : ℚ) [0.2, 0.3, 0.45, 0.75, 0.5, 0.3] p)) :=
  ⟨by with_unfolding_all decide, by with_unfolding_all decide,
    C4_amended_end_uses_configured_threshold {} _ none (some 0.4) none _
      (by with_unfolding_all decide) (by with_unfolding_all decide)⟩

/-- C5: every indexed event returned by `detect_blooms` satisfies
`start_index ≤ peak_index ≤ end_index`, all valid positions into the
series, with `duration = end - start + 1 ≥ 1`. -/
theorem C5_event_index_invariants (d : BloomDetector) (xs : List ℚ)
    (evi : Option (List ℚ)) (th : Option ℚ) (dates : Option (List String))
    (e : BloomEvent) (he : e ∈ detect_blooms d xs evi th dates)
    (s p en : ℕ) (hs : e.start_index = some s) (hp : e.peak_index = some p)
    (hen : e.end_index = some en) :
    s ≤ p ∧ p ≤ en ∧ en < xs.length ∧
      e.duration_observations = some ((en : ℤ) - (s : ℤ) + 1) ∧
      1 ≤ (en : ℤ) - (s : ℤ) + 1 := by
  rcases detect_blooms_indexed_event he hp with ⟨rfl, hfp, hlen⟩
  rw [mkPeakEvent_start_index] at hs
  rw [mkPeakEvent_end_index] at hen
  have hs2 : findBloomStart xs p = s := by simpa using hs
  have hen2 : findBloomEnd d xs p = en := by simpa using hen
  have hb := findPeaks_mem hfp
  have hstart := findBloomStart_le xs p
  have hend := findBloomEnd_bounds d xs p (by omega)
  have hdur := mkPeakEvent_duration d xs evi dates p
  rw [hs2, hen2] at hdur
  refine ⟨by omega, by omega, by omega, hdur, by omega⟩

/-- Witness for C5 at the C1 input: the returned event has
`start_index = 0`, `peak_index = 3`, `end_index = 5`. -/
theorem C5_witness :
    (mkPeakEvent {} [0.2, 0.3, 0.45, 0.75, 0.5, 0.3] none none 3
        ∈ detect_blooms {} [0.2, 0.3, 0.45, 0.75, 0.5, 0.3] none (some 0.4) none) ∧
    (0 ≤ 3 ∧ 3 ≤ 5 ∧ 5 < ([0.2, 0.3, 0.45, 0.75, 0.5, 0.3] : List ℚ).length ∧
      (mkPeakEvent {} [0.2, 0.3, 0.45, 0.75, 0.5, 0.3] none none 3).duration_observations =
        some ((5 : ℤ) - (0 : ℤ) + 1) ∧
      1 ≤ (5 : ℤ) - (0 : ℤ) + 1) :=
  ⟨by with_unfolding_all decide,
    C5_event_index_invariants {} _ none (some 0.4) none _ (by with_unfolding_all decide)
      0 3 5 (by with_unfolding_all decide) (by with_unfolding_all decide)
      (by with_unfolding_all decide)⟩

/-- C8 counterexample: with exactly one yearly entry `analyze_trends`
returns the empty mapping — there is no status field at all (the claim
expects a no-data/insufficient status to be reported). -/
theorem C8_counterexample :
    analyze_trends [{ year := 2020, peak_ndvi := some 0.5, average_ndvi := some 0.4 }] =
      ({} : TrendsResult) ∧
    (analyze_trends [{ year := 2020, peak_ndvi := some 0.5, average_ndvi := some 0.4 }]).status
      = none := by with_unfolding_all decide

/-- C8 amended: with exactly one yearly entry `analyze_trends` returns the
empty mapping (no trend keys and no status field) without raising; the
`no_data` status is reported only for an empty input list. -/
theorem C8_amended_single_entry_empty :
    (∀ e : YearEntry,
      analyze_trends [e] = ({} : TrendsResult) ∧
      analyzeTrendsCore [e] = .ok ({} : TrendsResult)) ∧
    analyze_trends [] = { status := some "no_data" } :=
  ⟨fun _ => ⟨rfl, rfl⟩, rfl⟩

/-- C9 counterexample: on a payload carrying red and nir band assets, two
successive `calculate_ndvi` calls read different draws from the global
random generator and return different arrays (first element `7/11`, then
`0`). -/
theorem C9_counterexample :
    (calculate_ndvi bandPayload splitStream).1.data 0 = 7/11 ∧
    (calculate_ndvi bandPayload (calculate_ndvi bandPayload splitStream).2).1.data 0 = 0 ∧
    (calculate_ndvi bandPayload splitStream).1 ≠
      (calculate_ndvi bandPayload (calculate_ndvi bandPayload splitStream).2).1 := by
  refine ⟨by with_unfolding_all decide, by with_unfolding_all decide, fun h => ?_⟩
  have h0 := congrArg (fun a => a.data 0) h
  simp only at h0
  rw [show (calculate_ndvi bandPayload splitStream).1.data 0 = 7/11 from by
      with_unfolding_all decide,
    show (calculate_ndvi bandPayload
        (calculate_ndvi bandPayload splitStream).2).1.data 0 = 0 from by
      with_unfolding_all decide] at h0
  norm_num at h0

/-- C9 amended: `calculate_ndvi` is deterministic in its payload whenever
the payload does not reach the random-generator-backed band extraction
(demo mode, usable pre-calculated values, or a missing red/nir band):
two successive calls return equal arrays.  Payloads that do use band
extraction draw fresh random values, as the counterexample shows. -/
theorem C9_amended_pure_without_band_extraction (s : SatelliteData) (g : Rng)
    (h : usesBandExtraction s = false) :
    (calculate_ndvi s g).1 = (calculate_ndvi s ((calculate_ndvi s g).2)).1 := by
  by_cases hd : s.demo_mode
  · simp [calculate_ndvi, calculateNDVICore, hd]
  · cases hnd : s.ndvi_data with
    | some vs =>
      by_cases hvs : vs.isEmpty
      · cases hr : alookup "red" s.bands with
        | none =>
          cases hn : alookup "nir" s.bands with
          | none =>
            simp [calculate_ndvi, calculateNDVICore, calculateNDVICore.ndviBandPath,
              extractBandData, hd, hnd, hvs, hr, hn]
          | some b =>
            simp [calculate_ndvi, calculateNDVICore, calculateNDVICore.ndviBandPath,
              extractBandData, hd, hnd, hvs, hr, hn, randUniform]
        | some a =>
          cases hn : alookup "nir" s.bands with
          | none =>
            simp [calculate_ndvi, calculateNDVICore, calculateNDVICore.ndviBandPath,
              extractBandData, hd, hnd, hvs, hr, hn, randUniform]
          | some b =>
            exfalso
            simp [usesBandExtraction, hd, hnd, hvs, hr, hn] at h
      · simp [calculate_ndvi, calculateNDVICore, hd, hnd, hvs]
    | none =>
      cases hr : alookup "red" s.bands with
      | none =>
        cases hn : alookup "nir" s.bands with
        | none =>
          simp [calculate_ndvi, calculateNDVICore, calculateNDVICore.ndviBandPath,
            extractBandData, hd, hnd, hr, hn]
        | some b =>
          simp [calculate_ndvi, calculateNDVICore, calculateNDVICore.ndviBandPath,
            extractBandData, hd, hnd, hr, hn, randUniform]
      | some a =>
        cases hn : alookup "nir" s.bands with
        | none =>
          simp [calculate_ndvi, calculateNDVICore, calculateNDVICore.ndviBandPath,
            extractBandData, hd, hnd, hr, hn, randUniform]
        | some b =>
          exfalso
          simp [usesBandExtraction, hd, hnd, hr, hn] at h

theorem yoyGo_error :
    ∀ (pairs : List (ℤ × ℚ)) (py : ℤ) (pp : ℚ), pairs ≠ [] →
      (pp = 0 ∨ ∃ j, j + 1 < pairs.length ∧ (pairs.map Prod.snd).getD j 1 = 0) →
      ∃ msg, yoyGo py pp pairs = .error msg := by
  intro pairs
  induction pairs with
  | nil => intro py pp hne _; exact absurd rfl hne
  | cons hd rest ih =>
    intro py pp _ hz
    obtain ⟨y, p⟩ := hd
    by_cases hpp : pp = 0
    · exact ⟨_, by rw [yoyGo, if_pos hpp]⟩
    · rcases hz with hz | ⟨j, hj, hj2⟩
      · exact absurd hz hpp
      · have hrest : ∃ msg, yoyGo y p rest = .error msg := by
          cases j with
          | zero =>
            apply ih y p
            · intro hr
              rw [hr] at hj
              simp only [List.length_cons, List.length_nil] at hj
              omega
            · left
              simpa using hj2
          | succ k =>
            apply ih y p
            · intro hr
              rw [hr] at hj
              simp only [List.length_cons, List.length_nil] at hj
              omega
            · right
              refine ⟨k, ?_, ?_⟩
              · simp only [List.length_cons] at hj
                omega
              · simpa using hj2
        rcases hrest with ⟨msg, hmsg⟩
        exact ⟨msg, by rw [yoyGo, if_neg hpp, hmsg]⟩

theorem yoyChanges_error (years : List ℤ) (peaks : List ℚ)
    (hlen : years.length = peaks.length)
    (h : ∃ i, i + 1 < peaks.length ∧ peaks.getD i 1 = 0) :
    ∃ msg, yoyChanges years peaks = .error msg := by
  obtain ⟨i, hi, hz⟩ := h
  cases years with
  | nil =>
    simp only [List.length_nil] at hlen
    omega
  | cons y yt =>
    cases peaks with
    | nil => simp at hi
    | cons p pt =>
      simp only [List.length_cons] at hlen hi
      unfold yoyChanges
      rw [List.zip_cons_cons]
      apply yoyGo_error
      · intro hzip
        have hl := congrArg List.length hzip
        rw [List.length_zip] at hl
        simp only [List.length_nil] at hl
        omega
      · cases i with
        | zero =>
          left
          simpa using hz
        | succ k =>
          right
          refine ⟨k, ?_, ?_⟩
          · rw [List.length_zip]
            omega
          · have hmap : (yt.zip pt).map Prod.snd = pt :=
              List.map_snd_zip yt pt (by omega)
            rw [hmap]
            simpa using hz

theorem analyzeTrendsCore_error (entries : List YearEntry)
    (hlen : 2 ≤ entries.length)
    (h : ∃ i, i + 1 < entries.length ∧ (entries.getD i default).peak_ndvi.getD 0 = 0) :
    ∃ msg, analyzeTrendsCore entries = .error msg := by
  have hpk : ∃ i, i + 1 < (entries.map (fun en => en.peak_ndvi.getD 0)).length ∧
      (entries.map (fun en => en.peak_ndvi.getD 0)).getD i 1 = 0 := by
    obtain ⟨i, hi, hz⟩ := h
    have hilt : i < entries.length := by omega
    refine ⟨i, by simpa using hi, ?_⟩
    rw [List.getD_eq_getElem _ _ (by simpa using hilt), List.getElem_map]
    rw [List.getD_eq_getElem _ _ hilt] at hz
    exact hz
  obtain ⟨msg, hy⟩ := yoyChanges_error (entries.map (fun en => en.year))
    (entries.map (fun en => en.peak_ndvi.getD 0)) (by simp) hpk
  cases h1 : linregressQ ((entries.map (fun en => en.year)).map (fun y : ℤ => (y : ℚ)))
      (entries.map (fun en => en.peak_ndvi.getD 0)) with
  | error e =>
    refine ⟨e, ?_⟩
    simp only [analyzeTrendsCore]
    rw [if_neg (by omega), if_pos (by simpa using hlen), h1]
  | ok v1 =>
    cases h2 : linregressQ ((entries.map (fun en => en.year)).map (fun y : ℤ => (y : ℚ)))
        (entries.map (fun en => en.average_ndvi.getD 0)) with
    | error e =>
      refine ⟨e, ?_⟩
      simp only [analyzeTrendsCore]
      rw [if_neg (by omega), if_pos (by simpa using hlen), h1, h2]
    | ok v2 =>
      refine ⟨msg, ?_⟩
      simp only [analyzeTrendsCore]
      rw [if_neg (by omega), if_pos (by simpa using hlen), h1, h2, if_pos hlen, hy]

/-- C10: on at least 2 yearly entries where some entry other than the last
has peak value 0 (a missing peak field defaults to 0), the year-over-year
percent-change division raises, the exception is caught, and the whole call
returns the error-status fallback — no trend output is produced. -/
theorem C10_zero_peak_gives_error_fallback (entries : List YearEntry)
    (hlen : 2 ≤ entries.length)
    (h : ∃ i, i + 1 < entries.length ∧ (entries.getD i default).peak_ndvi.getD 0 = 0) :
    (analyze_trends entries).status = some "error" ∧
    (analyze_trends entries).peak_ndvi_trend = none ∧
    (analyze_trends entries).year_over_year_changes = none := by
  obtain ⟨msg, hmsg⟩ := analyzeTrendsCore_error entries hlen h
  unfold analyze_trends
  rw [hmsg]
  exact ⟨rfl, rfl, rfl⟩

/-- Witness for C10: two entries, the first with peak 0. -/
theorem C10_witness :
    2 ≤ ([{ year := 2020, peak_ndvi := some 0, average_ndvi := some 0.1 },
          { year := 2021, peak_ndvi := some 0.5, average_ndvi := some 0.3 }] :
        List YearEntry).length ∧
    (∃ i, i + 1 < ([{ year := 2020, peak_ndvi := some 0, average_ndvi := some 0.1 },
          { year := 2021, peak_ndvi := some 0.5, average_ndvi := some 0.3 }] :
        List YearEntry).length ∧
      (([{ year := 2020, peak_ndvi := some 0, average_ndvi := some 0.1 },
          { year := 2021, peak_ndvi := some 0.5, average_ndvi := some 0.3 }] :
        List YearEntry).getD i default).peak_ndvi.getD 0 = 0) ∧
    (analyze_trends [{ year := 2020, peak_ndvi := some 0, average_ndvi := some 0.1 },
          { year := 2021, peak_ndvi := some 0.5, average_ndvi := some 0.3 }]).status
      = some "error" :=
  ⟨by decide, ⟨0, by decide, by with_unfolding_all decide⟩,
    (C10_zero_peak_gives_error_fallback _ (by decide)
      ⟨0, by decide, by with_unfolding_all decide⟩).1⟩

/-- Witness for the amended C9 on a demo-mode payload. -/
theorem C9_amended_witness :
    usesBandExtraction { demo_mode := true, ndvi_values := some [0.5] } = false ∧
    (calculate_ndvi { demo_mode := true, ndvi_values := some [0.5] } ⟨fun _ => 0, 0⟩).1 =
      (calculate_ndvi { demo_mode := true, ndvi_values := some [0.5] }
        ((calculate_ndvi { demo_mode := true, ndvi_values := some [0.5] }
          ⟨fun _ => 0, 0⟩).2)).1 :=
  ⟨by decide, C9_amended_pure_without_band_extraction _ _ (by decide)⟩

/-- C6: whenever fewer than 2 parseable (peak_date, peak_value) pairs exist
across the whole history (and the effective current date parses, as
`datetime.now()` always does), `predict_next_bloom` returns status
`insufficient_data` with confidence 0 and carries no predicted date. -/
theorem C6_insufficient_pairs (historical : List HistYearly) (location : LocationDict)
    (vegetation_type : Option String) (current_date : Option String) (today : PDate)
    (hp : (parsePDate (effCurrentDate current_date today)).isSome)
    (hh : (collectPairs historical).length < 2) :
    (predict_next_bloom historical location vegetation_type current_date today).status =
      some "insufficient_data" ∧
    (predict_next_bloom historical location vegetation_type current_date today).confidence =
      some 0 ∧
    (predict_next_bloom historical location vegetation_type current_date today).predicted_date =
      none := by
  obtain ⟨dt, hdt⟩ := Option.isSome_iff_exists.mp hp
  unfold predict_next_bloom
  simp only [predictNextBloomCore]
  rw [hdt]
  dsimp only
  by_cases h0 : historical.length = 0
  · rw [if_pos h0]
    exact ⟨rfl, rfl, rfl⟩
  · rw [if_neg h0, if_pos hh]
    exact ⟨rfl, rfl, rfl⟩

/-- Witness for C6: empty history and a parseable current date. -/
theorem C6_witness :
    (parsePDate (effCurrentDate (some "2025-06-01") ⟨2025, 6, 1⟩)).isSome ∧
    (collectPairs []).length < 2 ∧
    (predict_next_bloom [] ⟨0, 0⟩ none (some "2025-06-01") ⟨2025, 6, 1⟩).status =
      some "insufficient_data" ∧
    (predict_next_bloom [] ⟨0, 0⟩ none (some "2025-06-01") ⟨2025, 6, 1⟩).confidence =
      some 0 :=
  ⟨by decide, by decide,
    (C6_insufficient_pairs [] ⟨0, 0⟩ none (some "2025-06-01") ⟨2025, 6, 1⟩
      (by decide) (by decide)).1,
    (C6_insufficient_pairs [] ⟨0, 0⟩ none (some "2025-06-01") ⟨2025, 6, 1⟩
      (by decide) (by decide)).2.1⟩

/-- C7: the ensemble weights the sub-methods `{statistical 0.40,
pattern_based 0.35, trend_adjusted 0.25}` by default and `{0.30, 0.35,
0.35}` with at least 5 years of history; its predicted date is the fixed
reference date plus the (int-truncated) weighted sum of the day-offsets of
the sub-predictions from that reference, and its confidence is the weighted
sum of the sub-confidences. -/
theorem C7_ensemble_weighted_combination (stat pat tre : MethodPrediction)
    (n_years : ℕ) (dS dP dT : ℤ) (cS cP cT : ℚ)
    (hdS : stat.predicted_date = some dS) (hdP : pat.predicted_date = some dP)
    (hdT : tre.predicted_date = some dT)
    (hcS : stat.confidence = some cS) (hcP : pat.confidence = some cP)
    (hcT : tre.confidence = some cT) :
    ∃ r, ensembleCore
        [("statistical", stat), ("pattern_based", pat), ("trend_adjusted", tre)]
        n_years = .ok r ∧
      r.predicted_date = some (referenceDate + pyInt
        (((dS - referenceDate : ℤ) : ℚ) * (if 5 ≤ n_years then 0.30 else 0.4)
          + ((dP - referenceDate : ℤ) : ℚ) * 0.35
          + ((dT - referenceDate : ℤ) : ℚ) * (if 5 ≤ n_years then 0.35 else 0.25))) ∧
      r.confidence = some (cS * (if 5 ≤ n_years then 0.30 else 0.4)
        + cP * 0.35 + cT * (if 5 ≤ n_years then 0.35 else 0.25)) := by
  simp only [ensembleCore, buildMethods, alookup, List.filterMap_cons, List.filterMap_nil,
    String.reduceEq, reduceIte, hdS, hdP, hdT, hcS, hcP, hcT, Option.some_bind,
    Option.map_some', Option.getD_some, List.map_cons, List.map_nil, List.sum_cons,
    List.sum_nil]
  refine ⟨_, rfl, ?_, ?_⟩ <;> simp only [Option.some.injEq]
  · congr 1
    ring_nf
  · ring_nf

/-- Witness for C7 at concrete sub-predictions and 3 years of history. -/
theorem C7_witness :
    (⟨"statistical_average", some 739355, none, none, some 0.7, none, none, none,
        none, none⟩ : MethodPrediction).predicted_date = some 739355 ∧
    (∃ r, ensembleCore
        [("statistical", ⟨"statistical_average", some 739355, none, none, some 0.7,
            none, none, none, none, none⟩),
         ("pattern_based", ⟨"pattern_based", some 739357, none, none, some 0.8,
            none, none, none, none, none⟩),
         ("trend_adjusted", ⟨"trend_adjusted", some 739351, none, none, some 0.6,
            none, none, none, none, none⟩)] 3 = .ok r ∧
      r.predicted_date = some (referenceDate + pyInt
        (((739355 - referenceDate : ℤ) : ℚ) * (if 5 ≤ 3 then 0.30 else 0.4)
          + ((739357 - referenceDate : ℤ) : ℚ) * 0.35
          + ((739351 - referenceDate : ℤ) : ℚ) * (if 5 ≤ 3 then 0.35 else 0.25))) ∧
      r.confidence = some (0.7 * (if 5 ≤ (3:ℕ) then 0.30 else 0.4)
        + 0.8 * 0.35 + 0.6 * (if 5 ≤ (3:ℕ) then 0.35 else 0.25))) :=
  ⟨rfl, C7_ensemble_weighted_combination _ _ _ 3 739355 739357 739351 0.7 0.8 0.6
    rfl rfl rfl rfl rfl rfl⟩

/-- C3: no public operation lets an exception escape.  Each public wrapper
returns the body value on success and the documented fallback on an
internal exception: the empty list for `detect_blooms`, an error-status
record for `analyze_trends`, an error-status record with confidence 0 for
`predict_next_bloom`, and an empty array for the index calculators. -/
theorem C3_exceptions_never_escape :
    (∀ (d : BloomDetector) (xs : List ℚ) (evi : Option (List ℚ)) (th : Option ℚ)
        (dates : Option (List String)),
      (∃ v, detectBloomsCore d xs evi th dates = .ok v ∧
        detect_blooms d xs evi th dates = v) ∨
      (∃ e, detectBloomsCore d xs evi th dates = .error e ∧
        detect_blooms d xs evi th dates = [])) ∧
    (∀ entries : List YearEntry,
      (∃ v, analyzeTrendsCore entries = .ok v ∧ analyze_trends entries = v) ∨
      (∃ e, analyzeTrendsCore entries = .error e ∧
        analyze_trends entries = { status := some "error", message := some e })) ∧
    (∀ (historical : List HistYearly) (location : LocationDict)
        (vegetation_type current_date : Option String) (today : PDate),
      (∃ v, predictNextBloomCore historical location vegetation_type current_date today
          = .ok v ∧
        predict_next_bloom historical location vegetation_type current_date today = v) ∨
      (∃ e, predictNextBloomCore historical location vegetation_type current_date today
          = .error e ∧
        predict_next_bloom historical location vegetation_type current_date today =
          { status := some "error", message := some e, confidence := some 0 })) ∧
    (∀ (s : SatelliteData) (g : Rng),
      (∃ v g2, calculateNDVICore s g = (.ok v, g2) ∧ calculate_ndvi s g = (v, g2)) ∨
      (∃ e g2, calculateNDVICore s g = (.error e, g2) ∧
        calculate_ndvi s g = (NDArr.ofList [], g2))) ∧
    (∀ (s : SatelliteData) (g : Rng),
      (∃ v g2, calculateEVICore s g = (.ok v, g2) ∧ calculate_evi s g = (v, g2)) ∨
      (∃ e g2, calculateEVICore s g = (.error e, g2) ∧
        calculate_evi s g = (NDArr.ofList [], g2))) := by
  refine ⟨?_, ?_, ?_, ?_, ?_⟩
  · intro d xs evi th dates
    cases hc : detectBloomsCore d xs evi th dates with
    | ok v => exact Or.inl ⟨v, rfl, by unfold detect_blooms; rw [hc]⟩
    | error e => exact Or.inr ⟨e, rfl, by unfold detect_blooms; rw [hc]⟩
  · intro entries
    cases hc : analyzeTrendsCore entries with
    | ok v => exact Or.inl ⟨v, rfl, by unfold analyze_trends; rw [hc]⟩
    | error e => exact Or.inr ⟨e, rfl, by unfold analyze_trends; rw [hc]⟩
  · intro historical location vegetation_type current_date today
    cases hc : predictNextBloomCore historical location vegetation_type current_date today with
    | ok v => exact Or.inl ⟨v, rfl, by unfold predict_next_bloom; rw [hc]⟩
    | error e => exact Or.inr ⟨e, rfl, by unfold predict_next_bloom; rw [hc]⟩
  · intro s g
    rcases hc : calculateNDVICore s g with ⟨r, g2⟩
    cases r with
    | ok v => exact Or.inl ⟨v, g2, rfl, by unfold calculate_ndvi; rw [hc]⟩
    | error e => exact Or.inr ⟨e, g2, rfl, by unfold calculate_ndvi; rw [hc]⟩
  · intro s g
    rcases hc : calculateEVICore s g with ⟨r, g2⟩
    cases r with
    | ok v => exact Or.inl ⟨v, g2, rfl, by unfold calculate_evi; rw [hc]⟩
    | error e => exact Or.inr ⟨e, g2, rfl, by unfold calculate_evi; rw [hc]⟩

end Bloom

